import Mathlib

/-!
Shallow embedding of `static/js/script.js` (phishing-analysis front end).

The script defines two functions inside a DOMContentLoaded handler:

* `analyzeEmail()` — reads the email text, validates it, toggles the
  loading indicator, issues a POST request to the analysis service,
  branches on the parsed response (embedded error field / analysis
  payload), and restores the indicator in a `finally` block;
* `displayResults(analysis)` — destructures the analysis object and
  renders the verdict: a header class derived from `risk_color`, a
  switch on `risk_level` choosing alert class, icon and recommendation,
  and an HTML body interpolating score, keywords, URLs and URL count.

The embedding models `displayResults` as a pure function producing the
rendered strings, and `analyzeEmail` as a function from the raw input
and the fetch outcome (supplied by the environment) to the trace of
observable DOM/UI effects, in program order.
-/

namespace PhishingUI

/-- Model of JavaScript `String.prototype.trim`: strip whitespace from
both ends.  (Lean's own `String.trim` is not kernel-reducible, so the
embedding works on the character list directly.) -/
def jsTrim (s : String) : String :=
  String.mk (((s.data.dropWhile Char.isWhitespace).reverse.dropWhile Char.isWhitespace).reverse)

/-- Model of JavaScript `String.prototype.toLowerCase` (ASCII range,
which covers the risk-level tokens ALTO/MEDIO/BAJO appearing here). -/
def jsToLower (s : String) : String :=
  String.mk (s.data.map Char.toLower)

/-- Model of JavaScript `Array.prototype.join` with separator `''`:
plain concatenation of the list of strings. -/
def concatAll : List String → String
  | [] => ""
  | s :: rest => s ++ concatAll rest

/-- The analysis object received from the service
(`data.analysis` in the script), with the exact fields the renderer
destructures: risk_level, risk_color, score, detected_keywords,
suspicious_urls, total_urls. -/
structure Analysis where
  risk_level : String
  risk_color : String
  score : Int
  detected_keywords : List String
  suspicious_urls : List String
  total_urls : Int
deriving DecidableEq, Repr

/-- The parsed JSON response body (`data` in the script): it may carry
an `error` field and/or an `analysis` field; either may be absent. -/
structure ResponseData where
  error : Option String
  analysis : Option Analysis
deriving DecidableEq, Repr

/-- Outcome of the `fetch` + `response.json()` step, supplied by the
environment: either the awaited promise rejects (network failure or
JSON parse failure, both thrown before the error-field check), or a
parsed JSON value is obtained. -/
inductive FetchOutcome where
  | networkFailure (message : String)
  | jsonResponse (data : ResponseData)
deriving DecidableEq, Repr

/-- Observable DOM/UI effects performed by the script, in program
order.  `setButton h d` models the pair of writes
`analyzeBtn.innerHTML = h; analyzeBtn.disabled = d`;
`setResultsDisplay v` models `results.style.display = v`;
`requestSent c` models the POST of the JSON body with field
`email_content` set to `c`; `alertShown m` models `alert(m)`. -/
inductive Event where
  | setButton (innerHTML : String) (disabled : Bool)
  | setResultsDisplay (display : String)
  | requestSent (email_content : String)
  | alertShown (message : String)
  | setHeaderClass (className : String)
  | setBodyHTML (html : String)
  | scrollIntoView
deriving DecidableEq, Repr

/-- The `switch (risk_level)` of `displayResults`: returns the triple
(alertClass, riskIcon, recommendation).  A JS `switch` on strings with
`case 'ALTO'`, `case 'MEDIO'` and `default` is an equality chain. -/
def riskPresentation (risk_level : String) : String × String × String :=
  if risk_level = "ALTO" then
    ("alert-danger", "🚨", "NO interactúes con este correo. Es muy probable que sea phishing.")
  else if risk_level = "MEDIO" then
    ("alert-warning", "⚠️", "Ten precaución. Verifica la fuente antes de realizar cualquier acción.")
  else
    ("alert-success", "✅", "El correo parece seguro, pero siempre mantén precaución.")

/-- Header styling token, the value `displayResults` writes to
`resultsHeader.className`: a fixed prefix and suffix around the
service-supplied `risk_color`. -/
def headerClassName (a : Analysis) : String :=
  "card-header bg-" ++ a.risk_color ++ " text-white"

/-- One keyword badge, the inner template of
`detected_keywords.map(keyword => ...)`. -/
def keywordBadge (keyword : String) : String :=
  "\n                            <span class=\"badge bg-warning text-dark\">" ++ keyword
    ++ "</span>\n                        "

/-- The mapped badge list (before `join('')`). -/
def keywordBadges (kws : List String) : List String :=
  kws.map keywordBadge

/-- Heading literal of the keyword block. -/
def keywordHeading : String :=
  "<h6>🔍 Palabras clave sospechosas detectadas:</h6>"

/-- The keyword-evidence block:
`detected_keywords.length > 0 ? ... : ''`.  A template literal denotes
the in-order concatenation of its literal segments and its interpolated
values, rendered here with `concatAll`. -/
def keywordBlock (kws : List String) : String :=
  if kws.length > 0 then
    concatAll
      [ "\n                <div class=\"mt-3\">\n                    ",
        keywordHeading,
        "\n                    <div class=\"d-flex flex-wrap gap-2\">\n                        ",
        concatAll (keywordBadges kws),
        "\n                    </div>\n                </div>\n            " ]
  else ""

/-- One suspicious-URL list item, the inner template of
`suspicious_urls.map(url => ...)`. -/
def urlListItem (url : String) : String :=
  "\n                            <li class=\"list-group-item list-group-item-warning\">\n                                <code>"
    ++ url ++ "</code>\n                            </li>\n                        "

/-- The mapped list-item list (before `join('')`). -/
def urlListItems (urls : List String) : List String :=
  urls.map urlListItem

/-- Heading literal of the suspicious-URL block. -/
def urlHeading : String :=
  "<h6>🔗 URLs sospechosas encontradas:</h6>"

/-- The suspicious-URL evidence block:
`suspicious_urls.length > 0 ? ... : ''`. -/
def urlBlock (urls : List String) : String :=
  if urls.length > 0 then
    concatAll
      [ "\n                <div class=\"mt-3\">\n                    ",
        urlHeading,
        "\n                    <ul class=\"list-group\">\n                        ",
        concatAll (urlListItems urls),
        "\n                    </ul>\n                </div>\n            " ]
  else ""

/-- The full template literal assigned to `resultsBody.innerHTML`: the
in-order concatenation of its literal segments and interpolated values
(alert class, lower-cased and verbatim risk level, icon, score,
recommendation, the two evidence blocks, and the URL count). -/
def resultsBodyHTML (a : Analysis) : String :=
  let p := riskPresentation a.risk_level
  concatAll
    [ "\n            <div class=\"alert ",
      p.1,
      " risk-",
      jsToLower a.risk_level,
      "\" role=\"alert\">\n                <h4 class=\"alert-heading\">",
      p.2.1,
      " Nivel de Riesgo: ",
      a.risk_level,
      "</h4>\n                <p><strong>Puntuación de riesgo:</strong> ",
      toString a.score,
      " puntos</p>\n                <hr>\n                <p class=\"mb-0\"><strong>Recomendación:</strong> ",
      p.2.2,
      "</p>\n            </div>\n\n            ",
      keywordBlock a.detected_keywords,
      "\n\n            ",
      urlBlock a.suspicious_urls,
      "\n\n            <div class=\"mt-3\">\n                <small class=\"text-muted\">\n                    📈 Total de URLs encontradas: ",
      toString a.total_urls,
      " | \n                    🛡️ Análisis realizado con éxito\n                </small>\n            </div>\n        " ]

/-- Trace of DOM effects of `displayResults(analysis)`. -/
def displayResults (a : Analysis) : List Event :=
  [Event.setHeaderClass (headerClassName a),
   Event.setBodyHTML (resultsBodyHTML a),
   Event.setResultsDisplay "block",
   Event.scrollIntoView]

/-- The `alert` text of the empty-input short circuit. -/
def emptyInputAlert : String :=
  "Por favor, ingresa el contenido del correo electrónico"

/-- The `catch` handler notification: fixed prefix plus the caught
error message (`alert('Error al analizar el correo: ' + error.message)`). -/
def errorAlertText (message : String) : String :=
  "Error al analizar el correo: " ++ message

/-- Message of the TypeError thrown when `displayResults` destructures
an absent `analysis` value; the exact wording is engine-dependent and
irrelevant to the theorems. -/
def typeErrorMessage : String :=
  "Cannot destructure property risk_level of undefined as it is undefined"

/-- JavaScript truthiness of `data.error` under the wire contract
(string-valued field): present and non-empty. -/
def truthyError : Option String → Bool
  | none => false
  | some s => !(s == "")

/-- Trace of observable effects of `analyzeEmail()`, given the raw
textarea value and the fetch outcome.  Mirrors the control flow:
empty-trim short circuit; loading toggle, results hidden, request sent;
`try` branch on the parsed data; `catch` alert; `finally` restore. -/
def analyzeEmail (input : String) (outcome : FetchOutcome) : List Event :=
  let emailContent := jsTrim input
  if emailContent = "" then
    [Event.alertShown emptyInputAlert]
  else
    [Event.setButton "⏳ Analizando..." true,
     Event.setResultsDisplay "none",
     Event.requestSent emailContent]
    ++ (match outcome with
        | FetchOutcome.networkFailure msg =>
            [Event.alertShown (errorAlertText msg)]
        | FetchOutcome.jsonResponse data =>
            if truthyError data.error then
              [Event.alertShown (errorAlertText (data.error.getD ""))]
            else
              match data.analysis with
              | none => [Event.alertShown (errorAlertText typeErrorMessage)]
              | some a => displayResults a)
    ++ [Event.setButton "🔍 Analizar Correo" false]

/-- Discriminator: a network request event. -/
def Event.isRequest : Event → Bool
  | Event.requestSent _ => true
  | _ => false

/-- Discriminator: any write to the analyze button (indicator toggle). -/
def Event.isButtonWrite : Event → Bool
  | Event.setButton _ _ => true
  | _ => false

/-- Discriminator: the in-flight indicator write (button disabled). -/
def Event.isLoadingWrite : Event → Bool
  | Event.setButton _ disabled => disabled
  | _ => false

/-- Discriminator: the idle-restore indicator write (button enabled). -/
def Event.isIdleWrite : Event → Bool
  | Event.setButton _ disabled => !disabled
  | _ => false

/-- Discriminator: the results region is revealed. -/
def Event.isShowResults : Event → Bool
  | Event.setResultsDisplay d => d == "block"
  | _ => false

/-- Discriminator: an `alert` notification. -/
def Event.isAlert : Event → Bool
  | Event.alertShown _ => true
  | _ => false

/-- Discriminator: a write to the results body HTML. -/
def Event.isBodyWrite : Event → Bool
  | Event.setBodyHTML _ => true
  | _ => false

/-- The events of the `try`/`catch` region that depend on the fetch
outcome (between the request and the `finally` restore): the `catch`
alert on a rejected promise, the `catch` alert on a truthy embedded
error or on the destructuring TypeError, or the `displayResults`
effects. -/
def midEvents : FetchOutcome → List Event
  | FetchOutcome.networkFailure msg =>
      [Event.alertShown (errorAlertText msg)]
  | FetchOutcome.jsonResponse data =>
      if truthyError data.error then
        [Event.alertShown (errorAlertText (data.error.getD ""))]
      else
        match data.analysis with
        | none => [Event.alertShown (errorAlertText typeErrorMessage)]
        | some a => displayResults a

/-- The fetch outcomes on which the `try` block reaches
`displayResults` with a usable analysis object: a parsed JSON value
with no truthy error field and a present analysis field. -/
def responseSucceeds : FetchOutcome → Bool
  | FetchOutcome.networkFailure _ => false
  | FetchOutcome.jsonResponse data => !truthyError data.error && data.analysis.isSome

/-- Occurrence of `needle` verbatim (character-for-character, as a
contiguous substring) inside `s`. -/
def occursIn (needle s : String) : Prop :=
  ∃ p q, s = p ++ needle ++ q

theorem occursIn_self (s : String) : occursIn s s :=
  ⟨"", "", by simp⟩

theorem occursIn_append_left (n x y : String) (h : occursIn n x) :
    occursIn n (x ++ y) := by
  obtain ⟨p, q, rfl⟩ := h
  exact ⟨p, q ++ y, by simp [String.append_assoc]⟩

theorem occursIn_append_right (n x y : String) (h : occursIn n y) :
    occursIn n (x ++ y) := by
  obtain ⟨p, q, rfl⟩ := h
  exact ⟨x ++ p, q, by simp [String.append_assoc]⟩

theorem occursIn_trans (a b c : String) (h1 : occursIn a b) (h2 : occursIn b c) :
    occursIn a c := by
  obtain ⟨p, q, rfl⟩ := h1
  obtain ⟨u, v, rfl⟩ := h2
  exact ⟨u ++ p, q ++ v, by simp [String.append_assoc]⟩

theorem occursIn_concatAll_of_mem (x : String) (l : List String) (h : x ∈ l) :
    occursIn x (concatAll l) := by
  induction l with
  | nil => cases h
  | cons a rest ih =>
      rcases List.mem_cons.mp h with h | h
      · subst h
        exact occursIn_append_left _ _ _ (occursIn_self _)
      · exact occursIn_append_right _ _ _ (ih h)

theorem occursIn_concatAll (n x : String) (l : List String) (hx : x ∈ l)
    (h : occursIn n x) : occursIn n (concatAll l) :=
  occursIn_trans _ _ _ h (occursIn_concatAll_of_mem _ _ hx)

theorem string_append_ne_empty_left (x y : String) (hx : x ≠ "") : x ++ y ≠ "" := by
  intro h
  apply hx
  apply String.ext
  have hd := congrArg String.data h
  rw [String.data_append] at hd
  have : x.data = [] := (List.append_eq_nil.mp hd).1
  simpa using this

theorem concatAll_cons_ne_empty (s : String) (rest : List String) (hs : s ≠ "") :
    concatAll (s :: rest) ≠ "" :=
  string_append_ne_empty_left _ _ hs

theorem keywordBlock_eq_empty_iff (kws : List String) :
    keywordBlock kws = "" ↔ kws = [] := by
  constructor
  · intro h
    by_contra hne
    have hlen : 0 < kws.length := List.length_pos.mpr hne
    rw [keywordBlock, if_pos hlen] at h
    exact concatAll_cons_ne_empty _ _ (by decide) h
  · intro h
    subst h
    rfl

theorem urlBlock_eq_empty_iff (urls : List String) :
    urlBlock urls = "" ↔ urls = [] := by
  constructor
  · intro h
    by_contra hne
    have hlen : 0 < urls.length := List.length_pos.mpr hne
    rw [urlBlock, if_pos hlen] at h
    exact concatAll_cons_ne_empty _ _ (by decide) h
  · intro h
    subst h
    rfl

theorem analyzeEmail_shape (input : String) (o : FetchOutcome)
    (h : jsTrim input ≠ "") :
    analyzeEmail input o =
      [Event.setButton "⏳ Analizando..." true,
       Event.setResultsDisplay "none",
       Event.requestSent (jsTrim input)]
      ++ midEvents o
      ++ [Event.setButton "🔍 Analizar Correo" false] := by
  rcases o with msg | data
  · simp [analyzeEmail, h, midEvents]
  · simp [analyzeEmail, h, midEvents]

theorem midEvents_countP_isLoadingWrite (o : FetchOutcome) :
    (midEvents o).countP Event.isLoadingWrite = 0 := by
  rcases o with msg | ⟨err, ana⟩
  · rfl
  · rw [midEvents]
    split
    · rfl
    · rcases ana with _ | a <;> rfl

theorem midEvents_countP_isIdleWrite (o : FetchOutcome) :
    (midEvents o).countP Event.isIdleWrite = 0 := by
  rcases o with msg | ⟨err, ana⟩
  · rfl
  · rw [midEvents]
    split
    · rfl
    · rcases ana with _ | a <;> rfl

theorem midEvents_countP_isRequest (o : FetchOutcome) :
    (midEvents o).countP Event.isRequest = 0 := by
  rcases o with msg | ⟨err, ana⟩
  · rfl
  · rw [midEvents]
    split
    · rfl
    · rcases ana with _ | a <;> rfl

theorem midEvents_countP_isShowResults (o : FetchOutcome) :
    (midEvents o).countP Event.isShowResults =
      (if responseSucceeds o then 1 else 0) := by
  rcases o with msg | ⟨err, ana⟩
  · rfl
  · rw [midEvents]
    by_cases he : truthyError err
    · simp [he, responseSucceeds, Event.isShowResults]
    · rcases ana with _ | a <;>
        simp [he, responseSucceeds, displayResults, Event.isShowResults]

/-- C1: the tier-to-presentation mapping of `displayResults` is the
exact table of §4.2 — the HIGH tier (`ALTO`) yields the danger alert,
the 🚨 icon and the HIGH-row recommendation, the MEDIUM tier (`MEDIO`)
yields the warning alert, the ⚠️ icon and the MEDIUM-row
recommendation, and every other tier string (including the LOW tier)
falls to the default branch yielding the success alert, the ✅ icon and
the default-row recommendation.  Determinism and totality hold because
`riskPresentation` is a total function of the tier string. -/
theorem C1_risk_presentation_table (s : String)
    (hA : s ≠ "ALTO") (hM : s ≠ "MEDIO") :
    riskPresentation "ALTO" =
      ("alert-danger", "🚨",
        "NO interactúes con este correo. Es muy probable que sea phishing.") ∧
    riskPresentation "MEDIO" =
      ("alert-warning", "⚠️",
        "Ten precaución. Verifica la fuente antes de realizar cualquier acción.") ∧
    riskPresentation s =
      ("alert-success", "✅",
        "El correo parece seguro, pero siempre mantén precaución.") := by
  refine ⟨by decide, by decide, ?_⟩
  simp [riskPresentation, hA, hM]

/-- Witness for C1 at the concrete LOW-tier string `BAJO`. -/
theorem C1_risk_presentation_table_witness :
    riskPresentation "BAJO" =
      ("alert-success", "✅",
        "El correo parece seguro, pero siempre mantén precaución.") :=
  (C1_risk_presentation_table "BAJO" (by decide) (by decide)).2.2

/-- C2: when the trimmed input is empty, `analyzeEmail` short-circuits
with the validation alert (the spec's `EmptyInputError`): the whole
trace is that single alert, so no request is sent, no request payload
is constructed, and the in-flight indicator is never toggled, whatever
the environment would have answered. -/
theorem C2_empty_input_short_circuit (input : String) (o : FetchOutcome)
    (h : jsTrim input = "") :
    analyzeEmail input o = [Event.alertShown emptyInputAlert] ∧
    (analyzeEmail input o).countP Event.isRequest = 0 ∧
    (analyzeEmail input o).countP Event.isButtonWrite = 0 := by
  have ht : analyzeEmail input o = [Event.alertShown emptyInputAlert] := by
    simp [analyzeEmail, h]
  refine ⟨ht, ?_, ?_⟩ <;> rw [ht] <;> decide

/-- Witness for C2 on a whitespace-only input and an arbitrary outcome. -/
theorem C2_empty_input_short_circuit_witness :
    analyzeEmail "   " (FetchOutcome.networkFailure "down") =
      [Event.alertShown emptyInputAlert] :=
  (C2_empty_input_short_circuit "   " (FetchOutcome.networkFailure "down")
    (by decide)).1

/-- C3: the keyword-badge block of the rendered model is non-trivial
exactly when `detected_keywords` is non-empty, and likewise the
suspicious-URL block against `suspicious_urls`; when the list is empty
the corresponding block is the empty string (the block is absent
entirely, not an empty container), and both blocks are unchanged under
any change of `total_urls`. -/
theorem C3_evidence_blocks (a : Analysis) :
    (keywordBlock a.detected_keywords = "" ↔ a.detected_keywords = []) ∧
    (urlBlock a.suspicious_urls = "" ↔ a.suspicious_urls = []) ∧
    (∀ n : Int,
      keywordBlock (Analysis.detected_keywords { a with total_urls := n }) =
        keywordBlock a.detected_keywords ∧
      urlBlock (Analysis.suspicious_urls { a with total_urls := n }) =
        urlBlock a.suspicious_urls) :=
  ⟨keywordBlock_eq_empty_iff _, urlBlock_eq_empty_iff _, fun _ => ⟨rfl, rfl⟩⟩

/-- C4: whenever the trimmed input is non-empty, the loading indicator
is written to the in-flight state exactly once, before the request
event, and restored to idle exactly once; the restore is the very last
event of the trace on every fetch outcome, so the operation never ends
in-flight. -/
theorem C4_indicator_symmetry (input : String) (o : FetchOutcome)
    (h : jsTrim input ≠ "") :
    (analyzeEmail input o).countP Event.isLoadingWrite = 1 ∧
    (analyzeEmail input o).countP Event.isIdleWrite = 1 ∧
    (∃ rest, analyzeEmail input o =
        Event.setButton "⏳ Analizando..." true ::
        Event.setResultsDisplay "none" ::
        Event.requestSent (jsTrim input) :: rest) ∧
    (analyzeEmail input o).getLast? =
      some (Event.setButton "🔍 Analizar Correo" false) := by
  rw [analyzeEmail_shape input o h]
  refine ⟨?_, ?_, ?_, ?_⟩
  · rw [List.countP_append, List.countP_append, midEvents_countP_isLoadingWrite]
    rfl
  · rw [List.countP_append, List.countP_append, midEvents_countP_isIdleWrite]
    rfl
  · exact ⟨midEvents o ++ [Event.setButton "🔍 Analizar Correo" false], by simp⟩
  · exact List.getLast?_concat _

/-- Witness for C4 on a concrete input and a service-error outcome. -/
theorem C4_indicator_symmetry_witness :
    (analyzeEmail "hola" (FetchOutcome.jsonResponse ⟨some "boom", none⟩)).countP
        Event.isLoadingWrite = 1 ∧
    (analyzeEmail "hola" (FetchOutcome.jsonResponse ⟨some "boom", none⟩)).getLast? =
      some (Event.setButton "🔍 Analizar Correo" false) := by
  have h := C4_indicator_symmetry "hola"
    (FetchOutcome.jsonResponse ⟨some "boom", none⟩) (by decide)
  exact ⟨h.1, h.2.2.2⟩

/-- Counterexample to C5 as stated: the parsed response body with
error field present but equal to the empty string (and a valid
analysis object) does contain an embedded error field, yet the code
checks JavaScript truthiness (`if (data.error)`), so no ServiceError
notification is raised at all and the results are rendered instead. -/
theorem C5_counterexample :
    (analyzeEmail "hola"
      (FetchOutcome.jsonResponse
        ⟨some "",
         some ⟨"ALTO", "danger", 85, ["free"], ["http://bit.ly/x"], 1⟩⟩)).countP
        Event.isAlert = 0 ∧
    (analyzeEmail "hola"
      (FetchOutcome.jsonResponse
        ⟨some "",
         some ⟨"ALTO", "danger", 85, ["free"], ["http://bit.ly/x"], 1⟩⟩)).countP
        Event.isShowResults = 1 := by
  decide

/-- C5 amended: for every response whose embedded error field is
present with a non-empty (truthy) message, `analyzeEmail` takes the
service-error path: the trace is exactly loading toggle, results
hidden, request, the notification combining the fixed prefix with the
service-reported message, and the idle restore — in particular no
results body is written and no presentation is revealed. -/
theorem C5_service_error (input msg : String) (d : ResponseData)
    (h : jsTrim input ≠ "") (he : d.error = some msg) (hm : msg ≠ "") :
    analyzeEmail input (FetchOutcome.jsonResponse d) =
      [Event.setButton "⏳ Analizando..." true,
       Event.setResultsDisplay "none",
       Event.requestSent (jsTrim input),
       Event.alertShown (errorAlertText msg),
       Event.setButton "🔍 Analizar Correo" false] ∧
    (analyzeEmail input (FetchOutcome.jsonResponse d)).countP
      Event.isBodyWrite = 0 ∧
    (analyzeEmail input (FetchOutcome.jsonResponse d)).countP
      Event.isShowResults = 0 := by
  have htruthy : truthyError d.error = true := by
    rw [he]
    simp [truthyError, hm]
  have ht : analyzeEmail input (FetchOutcome.jsonResponse d) =
      [Event.setButton "⏳ Analizando..." true,
       Event.setResultsDisplay "none",
       Event.requestSent (jsTrim input),
       Event.alertShown (errorAlertText msg),
       Event.setButton "🔍 Analizar Correo" false] := by
    rw [analyzeEmail_shape input (FetchOutcome.jsonResponse d) h]
    rw [midEvents, if_pos htruthy, he]
    rfl
  refine ⟨ht, ?_, ?_⟩ <;> rw [ht] <;> rfl

/-- Witness for C5 at the concrete service error of Scenario C. -/
theorem C5_service_error_witness :
    analyzeEmail "hola"
        (FetchOutcome.jsonResponse ⟨some "malformed payload", none⟩) =
      [Event.setButton "⏳ Analizando..." true,
       Event.setResultsDisplay "none",
       Event.requestSent (jsTrim "hola"),
       Event.alertShown (errorAlertText "malformed payload"),
       Event.setButton "🔍 Analizar Correo" false] :=
  (C5_service_error "hola" "malformed payload" ⟨some "malformed payload", none⟩
    (by decide) rfl (by decide)).1

/-- C6: the header styling token is the fixed prefix and suffix around
the service-supplied `risk_color` and is never recomputed from
`risk_level`: two analyses sharing a risk level but differing in risk
color get different header tokens. -/
theorem C6_header_from_risk_color (a b : Analysis)
    (_hlev : a.risk_level = b.risk_level) (hcol : a.risk_color ≠ b.risk_color) :
    headerClassName a = "card-header bg-" ++ a.risk_color ++ " text-white" ∧
    headerClassName a ≠ headerClassName b := by
  refine ⟨rfl, ?_⟩
  intro h
  apply hcol
  apply String.ext
  have hd := congrArg String.data h
  simp only [headerClassName, String.data_append] at hd
  rw [List.append_assoc, List.append_assoc] at hd
  exact List.append_cancel_right (List.append_cancel_left hd)

/-- Witness for C6: same tier, different service color. -/
theorem C6_header_from_risk_color_witness :
    headerClassName ⟨"ALTO", "danger", 85, [], [], 1⟩ ≠
      headerClassName ⟨"ALTO", "warning", 85, [], [], 1⟩ :=
  (C6_header_from_risk_color ⟨"ALTO", "danger", 85, [], [], 1⟩
    ⟨"ALTO", "warning", 85, [], [], 1⟩ rfl (by decide)).2

/-- C7: the rendered keyword badges and URL list items are the
element-wise images of the corresponding input sequences: same length,
and at every index the entry is the badge (resp. list item) of the
input element at that index — no element dropped, duplicated or
reordered. -/
theorem C7_evidence_order (kws urls : List String) (i j : Nat) :
    (keywordBadges kws).length = kws.length ∧
    (urlListItems urls).length = urls.length ∧
    (keywordBadges kws)[i]? = (kws[i]?).map keywordBadge ∧
    (urlListItems urls)[j]? = (urls[j]?).map urlListItem := by
  refine ⟨?_, ?_, ?_, ?_⟩ <;>
    simp [keywordBadges, urlListItems, List.getElem?_map]

theorem occursIn_keywordBadge (k : String) : occursIn k (keywordBadge k) :=
  ⟨"\n                            <span class=\"badge bg-warning text-dark\">",
   "</span>\n                        ", rfl⟩

theorem occursIn_urlListItem (u : String) : occursIn u (urlListItem u) :=
  ⟨"\n                            <li class=\"list-group-item list-group-item-warning\">\n                                <code>",
   "</code>\n                            </li>\n                        ", rfl⟩

theorem occursIn_keywordBlock (k : String) (kws : List String) (hk : k ∈ kws) :
    occursIn k (keywordBlock kws) := by
  have hlen : 0 < kws.length := List.length_pos.mpr (by rintro rfl; cases hk)
  rw [keywordBlock, if_pos hlen]
  refine occursIn_concatAll k (concatAll (keywordBadges kws)) _ (by simp) ?_
  exact occursIn_concatAll k (keywordBadge k) _
    (List.mem_map_of_mem keywordBadge hk) (occursIn_keywordBadge k)

theorem occursIn_urlBlock (u : String) (urls : List String) (hu : u ∈ urls) :
    occursIn u (urlBlock urls) := by
  have hlen : 0 < urls.length := List.length_pos.mpr (by rintro rfl; cases hu)
  rw [urlBlock, if_pos hlen]
  refine occursIn_concatAll u (concatAll (urlListItems urls)) _ (by simp) ?_
  exact occursIn_concatAll u (urlListItem u) _
    (List.mem_map_of_mem urlListItem hu) (occursIn_urlListItem u)

/-- C8: for every analysis result, each detected keyword and each
suspicious URL, as well as the risk level and the rendered score, is
interpolated into the results body character-for-character with no
escaping: the rendered markup contains each of these strings verbatim
as a contiguous substring, whatever characters (markup-significant or
not) they carry.  Each part holds independently, so the risk level and
score occur verbatim even when both evidence lists are empty. -/
theorem C8_verbatim_interpolation (a : Analysis) :
    (∀ k ∈ a.detected_keywords, occursIn k (resultsBodyHTML a)) ∧
    (∀ u ∈ a.suspicious_urls, occursIn u (resultsBodyHTML a)) ∧
    occursIn a.risk_level (resultsBodyHTML a) ∧
    occursIn (toString a.score) (resultsBodyHTML a) := by
  simp only [resultsBodyHTML]
  refine ⟨?_, ?_, ?_, ?_⟩
  · intro k hk
    exact occursIn_concatAll k (keywordBlock a.detected_keywords) _ (by simp)
      (occursIn_keywordBlock k _ hk)
  · intro u hu
    exact occursIn_concatAll u (urlBlock a.suspicious_urls) _ (by simp)
      (occursIn_urlBlock u _ hu)
  · exact occursIn_concatAll_of_mem a.risk_level _ (by simp)
  · exact occursIn_concatAll_of_mem (toString a.score) _ (by simp)

/-- Witness for C8 on the concrete Scenario A analysis, discharging
the membership hypotheses of both evidence parts. -/
theorem C8_verbatim_interpolation_witness :
    occursIn "free"
      (resultsBodyHTML ⟨"ALTO", "danger", 85, ["free", "click"],
        ["http://bit.ly/x"], 1⟩) ∧
    occursIn "http://bit.ly/x"
      (resultsBodyHTML ⟨"ALTO", "danger", 85, ["free", "click"],
        ["http://bit.ly/x"], 1⟩) ∧
    occursIn "ALTO"
      (resultsBodyHTML ⟨"ALTO", "danger", 85, ["free", "click"],
        ["http://bit.ly/x"], 1⟩) ∧
    occursIn (toString (85 : Int))
      (resultsBodyHTML ⟨"ALTO", "danger", 85, ["free", "click"],
        ["http://bit.ly/x"], 1⟩) :=
  ⟨(C8_verbatim_interpolation
      ⟨"ALTO", "danger", 85, ["free", "click"], ["http://bit.ly/x"], 1⟩).1
      "free" (by decide),
   (C8_verbatim_interpolation
      ⟨"ALTO", "danger", 85, ["free", "click"], ["http://bit.ly/x"], 1⟩).2.1
      "http://bit.ly/x" (by decide),
   (C8_verbatim_interpolation
      ⟨"ALTO", "danger", 85, ["free", "click"], ["http://bit.ly/x"], 1⟩).2.2.1,
   (C8_verbatim_interpolation
      ⟨"ALTO", "danger", 85, ["free", "click"], ["http://bit.ly/x"], 1⟩).2.2.2⟩

/-- C9: a parsed response with no truthy error field and no analysis
field makes the destructuring in `displayResults` throw; the exception
lands in the same `catch` handler as transport failures — the trace is
literally the transport-failure trace for the TypeError message — so a
prefix-bearing notification is raised, no body is written, no results
are revealed, and the indicator is still restored (there is no
dedicated malformed-response error kind). -/
theorem C9_malformed_response (input : String) (d : ResponseData)
    (h : jsTrim input ≠ "") (he : truthyError d.error = false)
    (ha : d.analysis = none) :
    analyzeEmail input (FetchOutcome.jsonResponse d) =
      analyzeEmail input (FetchOutcome.networkFailure typeErrorMessage) ∧
    analyzeEmail input (FetchOutcome.jsonResponse d) =
      [Event.setButton "⏳ Analizando..." true,
       Event.setResultsDisplay "none",
       Event.requestSent (jsTrim input),
       Event.alertShown (errorAlertText typeErrorMessage),
       Event.setButton "🔍 Analizar Correo" false] ∧
    (analyzeEmail input (FetchOutcome.jsonResponse d)).countP
      Event.isBodyWrite = 0 ∧
    (analyzeEmail input (FetchOutcome.jsonResponse d)).countP
      Event.isShowResults = 0 := by
  have ht : analyzeEmail input (FetchOutcome.jsonResponse d) =
      [Event.setButton "⏳ Analizando..." true,
       Event.setResultsDisplay "none",
       Event.requestSent (jsTrim input),
       Event.alertShown (errorAlertText typeErrorMessage),
       Event.setButton "🔍 Analizar Correo" false] := by
    rw [analyzeEmail_shape input _ h, midEvents, if_neg (by simp [he]), ha]
    rfl
  have ht2 : analyzeEmail input (FetchOutcome.networkFailure typeErrorMessage) =
      [Event.setButton "⏳ Analizando..." true,
       Event.setResultsDisplay "none",
       Event.requestSent (jsTrim input),
       Event.alertShown (errorAlertText typeErrorMessage),
       Event.setButton "🔍 Analizar Correo" false] := by
    rw [analyzeEmail_shape input _ h, midEvents]
    rfl
  refine ⟨ht.trans ht2.symm, ht, ?_, ?_⟩ <;> rw [ht] <;> rfl

/-- Witness for C9 at a concrete analysis-free response body. -/
theorem C9_malformed_response_witness :
    analyzeEmail "hola" (FetchOutcome.jsonResponse ⟨none, none⟩) =
      analyzeEmail "hola" (FetchOutcome.networkFailure typeErrorMessage) :=
  (C9_malformed_response "hola" ⟨none, none⟩ (by decide) rfl rfl).1

/-- C10: past the input check, the results region is hidden before the
request event; the region is revealed exactly on the successful
outcomes (so on any failure it stays hidden, including a failure after
an earlier success, since the region is re-hidden on every run), and on
a success the reveal happens only after the body HTML of the
presentation is written. -/
theorem C10_results_visibility (input : String) (o : FetchOutcome)
    (h : jsTrim input ≠ "") :
    (∃ rest, analyzeEmail input o =
        Event.setButton "⏳ Analizando..." true ::
        Event.setResultsDisplay "none" ::
        Event.requestSent (jsTrim input) :: rest) ∧
    (analyzeEmail input o).countP Event.isShowResults =
      (if responseSucceeds o then 1 else 0) ∧
    (∀ d a, o = FetchOutcome.jsonResponse d → truthyError d.error = false →
      d.analysis = some a →
      analyzeEmail input o =
        [Event.setButton "⏳ Analizando..." true,
         Event.setResultsDisplay "none",
         Event.requestSent (jsTrim input),
         Event.setHeaderClass (headerClassName a),
         Event.setBodyHTML (resultsBodyHTML a),
         Event.setResultsDisplay "block",
         Event.scrollIntoView,
         Event.setButton "🔍 Analizar Correo" false]) := by
  refine ⟨⟨midEvents o ++ [Event.setButton "🔍 Analizar Correo" false],
      by rw [analyzeEmail_shape input o h]; rfl⟩, ?_, ?_⟩
  · rw [analyzeEmail_shape input o h, List.countP_append, List.countP_append,
      midEvents_countP_isShowResults]
    cases responseSucceeds o <;> rfl
  · rintro d a rfl he ha
    rw [analyzeEmail_shape input _ h, midEvents, if_neg (by simp [he]), ha]
    rfl

/-- Witness for C10 on the concrete Scenario A success outcome. -/
theorem C10_results_visibility_witness :
    analyzeEmail "hola"
        (FetchOutcome.jsonResponse
          ⟨none, some ⟨"ALTO", "danger", 85, ["free"], ["http://bit.ly/x"], 1⟩⟩) =
      [Event.setButton "⏳ Analizando..." true,
       Event.setResultsDisplay "none",
       Event.requestSent (jsTrim "hola"),
       Event.setHeaderClass
         (headerClassName ⟨"ALTO", "danger", 85, ["free"], ["http://bit.ly/x"], 1⟩),
       Event.setBodyHTML
         (resultsBodyHTML ⟨"ALTO", "danger", 85, ["free"], ["http://bit.ly/x"], 1⟩),
       Event.setResultsDisplay "block",
       Event.scrollIntoView,
       Event.setButton "🔍 Analizar Correo" false] :=
  (C10_results_visibility "hola"
      (FetchOutcome.jsonResponse
        ⟨none, some ⟨"ALTO", "danger", 85, ["free"], ["http://bit.ly/x"], 1⟩⟩)
      (by decide)).2.2
    ⟨none, some ⟨"ALTO", "danger", 85, ["free"], ["http://bit.ly/x"], 1⟩⟩
    ⟨"ALTO", "danger", 85, ["free"], ["http://bit.ly/x"], 1⟩ rfl rfl rfl

end PhishingUI
